import Mathlib

/-!
Verification of the LogiTrack allocation-optimizer specification against
the application code in `src/app.py` (class `LogiTrackApp`).

The dashboard code in `src/app.py` is embedded shallowly: the optimization
run of `LogiTrackApp.run` (the `Optimization` action, lines 627-749) is
modelled as pure functions over explicit data, Python exceptions become
`Except String`, and Python true division (which raises `ZeroDivisionError`
on a zero denominator) becomes a guarded `Except` computation.

The backend collaborators `src/backend/optimizer.py` (class
`InventoryOptimizer`) and `src/backend/data_loader.py` (class `DataLoader`)
are not part of the sources; where a claim depends on them they are
modelled from the specification, and the corresponding definitions say so
in their doc comments.
-/

namespace LogiTrack

/-- Python true division. Dividing by zero raises `ZeroDivisionError`;
every other division returns the exact rational quotient. -/
def pyDiv (a b : ℚ) : Except String ℚ :=
  if b = 0 then Except.error "ZeroDivisionError" else Except.ok (a / b)

/-- A warehouse row of the warehouses table (spec section 6: columns
warehouse_id, capacity, current_stock, latitude, longitude, storage_cost). -/
structure Warehouse where
  warehouse_id : String
  capacity : ℕ
  current_stock : ℕ
  latitude : ℚ
  longitude : ℚ
  storage_cost : ℚ
deriving Repr, DecidableEq

/-- An order row of the orders table (spec section 6: columns order_id,
product_id, quantity, delivery_deadline, status, delivery_latitude,
delivery_longitude). -/
structure Order where
  order_id : String
  product_id : String
  quantity : ℕ
  delivery_deadline : String
  status : String
  delivery_latitude : ℚ
  delivery_longitude : ℚ
deriving Repr, DecidableEq

/-- One allocation edge (warehouse_id, order_id, quantity) of the plan
returned by the optimizer (spec section 3, `AllocationEdge`). -/
structure AllocationEdge where
  warehouse_id : String
  order_id : String
  quantity : ℕ
deriving Repr, DecidableEq

/-- An entry of `unfulfilled_orders` in the optimizer result
(spec section 3: order_id, quantity, fulfilled_quantity). -/
structure UnfulfilledEntry where
  order_id : String
  quantity : ℕ
  fulfilled_quantity : ℕ
deriving Repr, DecidableEq

/-- The structured result dictionary consumed by `LogiTrackApp.run`
(`results['status']`, `results['total_cost']`, `results['solving_time']`,
`results['allocation_plan']`, `results['unfulfilled_orders']`).
The allocation plan is kept as the flat list of its edges. -/
structure OptimizationResult where
  status : String
  total_cost : ℚ
  solving_time : ℚ
  allocation_plan : List AllocationEdge
  unfulfilled_orders : List UnfulfilledEntry
deriving Repr, DecidableEq

/-- The Order Fulfillment percentage computed at `src/app.py:688`:
`fulfilled_percent = 100 - (len(results['unfulfilled_orders']) / len(orders) * 100)`.
The division is Python true division and is not guarded, so a zero
`numOrders` raises `ZeroDivisionError`. -/
def fulfilledPercent (numUnfulfilled numOrders : ℕ) : Except String ℚ :=
  match pyDiv (numUnfulfilled : ℚ) (numOrders : ℚ) with
  | Except.error e => Except.error e
  | Except.ok frac => Except.ok (100 - frac * 100)

/-- The Order Fulfillment metric of the results row (`src/app.py:687-692`),
as a function of the optimizer result and the number of pending orders. -/
def orderFulfillmentMetric (results : OptimizationResult) (numOrders : ℕ) :
    Except String ℚ :=
  fulfilledPercent results.unfulfilled_orders.length numOrders

/-- The summary-metrics step of a run (`src/app.py:670-692`): the four
metric values Total Cost, Solving Time, Status and Order Fulfillment.
Only the last performs a division; an unhandled `ZeroDivisionError`
propagates out of the whole step. -/
def displayRunResults (results : OptimizationResult) (numOrders : ℕ) :
    Except String (ℚ × ℚ × String × ℚ) :=
  match orderFulfillmentMetric results numOrders with
  | Except.error e => Except.error e
  | Except.ok fp =>
      Except.ok (results.total_cost, results.solving_time, results.status, fp)

/-- The order-priority weight selected in the sidebar
(`src/app.py:640-644`): options Low, Medium, High. -/
inductive PriorityWeight
  | Low
  | Medium
  | High
deriving Repr, DecidableEq

/-- The mutable state of the `InventoryOptimizer` object held at
`self.optimizer`: the only configuration written to it by `LogiTrackApp`
is the `solver_time` attribute (`src/app.py:646`). -/
structure Optimizer where
  solver_time : ℕ
deriving Repr, DecidableEq

/-- The arguments actually passed to `self.optimizer.optimize` at
`src/app.py:665`: exactly the warehouses frame and the pending-orders
frame, and nothing else. -/
structure OptimizeArgs where
  warehouses : List Warehouse
  orders : List Order
deriving Repr, DecidableEq

/-- The observable effect of one triggered optimization run on the
optimizer object and the optimize call (`src/app.py:646` and
`src/app.py:665`): the shared `solver_time` attribute is overwritten with
the slider value, and `optimize` is invoked with only the two data frames. -/
structure RunEffect where
  optimizerAfter : Optimizer
  callArgs : OptimizeArgs
deriving Repr, DecidableEq

/-- One triggered optimization run as performed by `LogiTrackApp.run`
(`src/app.py:633-665`): given the optimizer object, the two slider values
and the data snapshot, it mutates `optimizer.solver_time` and issues the
optimize call. The priority weight is read from the slider but stored
nowhere and passed to nothing. -/
def runOptimizationCall (opt : Optimizer) (solverTime : ℕ)
    (priorityWeight : PriorityWeight) (warehouses : List Warehouse)
    (orders : List Order) : RunEffect :=
  { optimizerAfter := { opt with solver_time := solverTime }
  , callArgs := { warehouses := warehouses, orders := orders } }

/-- Writing the slider value onto the shared optimizer object
(`self.optimizer.solver_time = solver_time`, `src/app.py:646`). -/
def setSolverTime (opt : Optimizer) (t : ℕ) : Optimizer :=
  { opt with solver_time := t }

/-- The time limit a solve call observes: `optimize` receives no
time-limit argument (`src/app.py:665`), so the backend can only read the
shared `solver_time` attribute current at the moment it solves. -/
def observedTimeLimit (opt : Optimizer) : ℕ :=
  opt.solver_time

/-- The time limit observed by the solve of caller A when two runs on the
same app instance interleave as: A writes `tA`, B writes `tB`, then A
solves. Both callers share the single `self.optimizer` object. -/
def raceObservedByA (tA tB : ℕ) : ℕ :=
  observedTimeLimit (setSolverTime (setSolverTime { solver_time := 20 } tA) tB)

/-- The streamlit slider widget of `src/app.py:633-638` with
`min_value=5`, `max_value=60`, `value=20`: the widget only ever yields a
value inside its bounds, modelled by clamping the user interaction. -/
def sliderClamp (lo hi user : ℕ) : ℕ :=
  max lo (min hi user)

/-- The solver-time value produced by the optimization configuration
surface (`src/app.py:633-638`). -/
def solverTimeFromUI (user : ℕ) : ℕ :=
  sliderClamp 5 60 user

/-- Per-order fulfillment data of a completed run: the requested
quantities and the quantities actually allocated, listed per order in the
same order. -/
structure FulfillmentData where
  quantities : List ℕ
  fulfilled : List ℕ
deriving Repr, DecidableEq

/-- Modelled from the spec: the optimizer backend `src/backend/optimizer.py`
is not among the sources; spec section 3 and section 4.4 state that
`unfulfilled_orders` lists exactly the orders whose allocated quantity
falls short of the requested quantity, so its length is the number of
orders with a positive shortfall. -/
def unfulfilledCount (d : FulfillmentData) : ℕ :=
  ((d.quantities.zip d.fulfilled).filter (fun p => p.2 < p.1)).length

/-- The number of orders whose requested quantity is fully allocated. -/
def fullyFulfilledCount (d : FulfillmentData) : ℕ :=
  ((d.quantities.zip d.fulfilled).filter (fun p => p.1 ≤ p.2)).length

/-- The Order Fulfillment figure the app reports for a completed run
(`src/app.py:688`), expressed over the per-order fulfillment data. -/
def displayedFulfillment (d : FulfillmentData) : Except String ℚ :=
  fulfilledPercent (unfulfilledCount d) d.quantities.length

/-- The fulfillment rate as the spec glossary defines it: the fraction of
total requested order quantity actually allocated, as a percentage.
This definition follows the words of the spec, for comparison with
`displayedFulfillment`, which follows the code. -/
def specFulfillmentRate (d : FulfillmentData) : ℚ :=
  100 * (d.fulfilled.sum : ℚ) / (d.quantities.sum : ℚ)

/-- Total quantity shipped out of the warehouse `wid` by the edges of an
allocation plan. -/
def shippedFrom (edges : List AllocationEdge) (wid : String) : ℕ :=
  ((edges.filter (fun e => e.warehouse_id = wid)).map (fun e => e.quantity)).sum

/-- Total quantity shipped to the order `oid` by the edges of an
allocation plan. -/
def shippedTo (edges : List AllocationEdge) (oid : String) : ℕ :=
  ((edges.filter (fun e => e.order_id = oid)).map (fun e => e.quantity)).sum

/-- Decidable check of the conservation invariants of spec section 3: every
warehouse ships at most its current stock and every order receives at most
its requested quantity. -/
def conservationOK (ws : List Warehouse) (os : List Order)
    (edges : List AllocationEdge) : Bool :=
  ws.all (fun w => shippedFrom edges w.warehouse_id ≤ w.current_stock) &&
  os.all (fun o => shippedTo edges o.order_id ≤ o.quantity)

/-- Modelled from the spec: the optimizer backend `src/backend/optimizer.py`
is not among the sources. Spec section 4.3 requires every partial or
best-effort solver output to be validated against the supply and demand
constraints before being returned, and section 7 requires a usable result,
even the empty allocation, instead of an exception; so the result
assembler returns the solver edges when they pass the conservation check
and degrades to the empty allocation otherwise. -/
def assembleResult (ws : List Warehouse) (os : List Order)
    (raw : List AllocationEdge) (status : String) (totalCost solvingTime : ℚ)
    (unf : List UnfulfilledEntry) : OptimizationResult :=
  if conservationOK ws os raw then
    { status := status, total_cost := totalCost, solving_time := solvingTime
    , allocation_plan := raw, unfulfilled_orders := unf }
  else
    { status := "Infeasible", total_cost := 0, solving_time := solvingTime
    , allocation_plan := [], unfulfilled_orders := unf }

/-- A pandas-style table, abstracted to its column names: the claims about
the run only depend on which columns exist. -/
structure Table where
  columns : List String
deriving Repr, DecidableEq

/-- Column subscription `df[col]` on a pandas frame: a missing column
raises `KeyError`. -/
def colAccess (t : Table) (c : String) : Except String Unit :=
  if c ∈ t.columns then Except.ok () else Except.error ("KeyError: " ++ c)

/-- The orders columns the run reads before calling `optimize`
(`src/app.py:662-663`): the total order quantity uses `quantity` and the
unique-delivery-regions figure uses `region`. -/
def preOptimizeOverview (orders : Table) : Except String Unit :=
  match colAccess orders "quantity" with
  | Except.error e => Except.error e
  | Except.ok _ => colAccess orders "region"

/-- The orders-table columns of the input contract of spec section 6. -/
def contractOrderColumns : List String :=
  ["order_id", "product_id", "quantity", "delivery_deadline", "status",
   "delivery_latitude", "delivery_longitude"]

/-- Whether a triggered run reaches the `optimize` call of
`src/app.py:665`: the overview writes of lines 654-663 run first, and any
exception they raise aborts the run before `optimize`. -/
def reachesOptimize (orders : Table) : Bool :=
  match preOptimizeOverview orders with
  | Except.ok _ => true
  | Except.error _ => false

/-- What the user sees when a triggered run finishes. `src/app.py` wraps
the whole run body in `try`; there is no uncaught path, so no constructor
here models a crash of the host process other than `crashed` below, which
the wrapper never produces. -/
inductive RunDisplay
  | success (results : OptimizationResult)
  | errorShown (msg : String)
  | crashed
deriving Repr, DecidableEq

/-- The exception wrapper around one triggered optimization run
(`src/app.py:649` and `src/app.py:747-749`): the whole body runs inside
`try`, and `except Exception as e` turns any exception into the diagnostic
message `Optimization error: ...` shown with `st.error`. -/
def guardedRun (body : Except String OptimizationResult) : RunDisplay :=
  match body with
  | Except.ok r => RunDisplay.success r
  | Except.error e => RunDisplay.errorShown ("Optimization error: " ++ e)

/-- One metric card of the results row. -/
structure MetricDisplay where
  label : String
  value : ℚ
  delta : Option String
deriving Repr, DecidableEq

/-- The Total Cost metric card built at `src/app.py:672-676`: the value
comes from `results['total_cost']` and the delta is the literal string
passed as `delta="-10%"`. -/
def totalCostMetric (results : OptimizationResult) : MetricDisplay :=
  { label := "Total Cost", value := results.total_cost, delta := some "-10%" }

/-- Which of the five files of the Upload Data path have been uploaded
(`src/app.py:99-103`): warehouses, sales, products, suppliers, transport. -/
structure UploadedFiles where
  warehouses : Bool
  sales : Bool
  products : Bool
  suppliers : Bool
  transport : Bool
deriving Repr, DecidableEq

/-- The `all(uploaded_files.values())` test of `src/app.py:105`. -/
def allUploaded (f : UploadedFiles) : Bool :=
  f.warehouses && f.sales && f.products && f.suppliers && f.transport

/-- A sidebar message shown by the Upload Data path. -/
inductive SidebarMsg
  | successMsg (s : String)
  | errorMsg (s : String)
  | warningMsg (s : String)
deriving Repr, DecidableEq

/-- The outcome of the Upload Data branch of
`LogiTrackApp.select_data_source`: whether the `DataLoader` constructor
was invoked, whether `self.data_loader` ended up set, the sidebar messages
shown, and the boolean the method returns. -/
structure UploadOutcome where
  ctorInvoked : Bool
  loaderCreated : Bool
  messages : List SidebarMsg
  returned : Bool
deriving Repr, DecidableEq

/-- The Upload Data branch of `select_data_source` (`src/app.py:99-116`).
The `DataLoader` constructor is not among the sources, so its outcome is
abstracted as an `Except` argument; it is only consulted when all five
files are present, matching the `if all(...)` guard. -/
def uploadDataPath (files : UploadedFiles) (ctorResult : Except String Unit) :
    UploadOutcome :=
  if allUploaded files then
    match ctorResult with
    | Except.ok _ =>
        { ctorInvoked := true, loaderCreated := true
        , messages := [SidebarMsg.successMsg "Custom data loaded successfully!"]
        , returned := true }
    | Except.error e =>
        { ctorInvoked := true, loaderCreated := false
        , messages := [SidebarMsg.errorMsg ("Error loading data: " ++ e),
            SidebarMsg.errorMsg "Please ensure your files match the template format"]
        , returned := false }
  else
    { ctorInvoked := false, loaderCreated := false
    , messages := [SidebarMsg.warningMsg "Please upload all required files"]
    , returned := false }

/-- Helper: the orders with a shortfall and the orders fully fulfilled
partition the zipped per-order data, so their counts add to its length. -/
theorem length_filter_shortfall (l : List (ℕ × ℕ)) :
    (l.filter (fun p => p.2 < p.1)).length +
      (l.filter (fun p => p.1 ≤ p.2)).length = l.length := by
  induction l with
  | nil => rfl
  | cons a t ih =>
    by_cases h : a.2 < a.1
    · have h2 : ¬ a.1 ≤ a.2 := by omega
      simp [List.filter_cons, h, h2]
      omega
    · have h2 : a.1 ≤ a.2 := by omega
      simp [List.filter_cons, h, h2]
      omega

/-- C1: with zero pending orders the summary-metrics step of the run
divides `len(results['unfulfilled_orders'])` by `len(orders) = 0`
(`src/app.py:688`), raising `ZeroDivisionError` no matter what the
optimizer returned, contradicting the claim that the division is guarded
and that a zero-order run never raises. -/
theorem zero_orders_run_divides_by_zero (results : OptimizationResult) :
    displayRunResults results 0 = Except.error "ZeroDivisionError" := by
  unfold displayRunResults orderFulfillmentMetric fulfilledPercent pyDiv
  rw [if_pos (by norm_num)]

/-- C2: the optimization run reads the priority-weight slider but the
effect of the run, including the arguments of the optimize call, is
identical for every priority weight: the selected weight is never supplied
to the optimization call. -/
theorem optimize_call_ignores_priority_weight (opt : Optimizer) (t : ℕ)
    (pw pw2 : PriorityWeight) (ws : List Warehouse) (os : List Order) :
    runOptimizationCall opt t pw ws os = runOptimizationCall opt t pw2 ws os :=
  rfl

/-- C3 counterexample: for two orders requesting 1 and 99 units where only
the 1-unit order is served, the app displays 50 percent while the
spec-defined fulfillment rate is 1 percent, so the displayed figure does
not equal the fraction of requested quantity actually allocated. -/
theorem displayed_fulfillment_differs_from_spec_rate :
    displayedFulfillment ⟨[1, 99], [1, 0]⟩ = Except.ok 50 ∧
    specFulfillmentRate ⟨[1, 99], [1, 0]⟩ = 1 ∧
    displayedFulfillment ⟨[1, 99], [1, 0]⟩ ≠
      Except.ok (specFulfillmentRate ⟨[1, 99], [1, 0]⟩) := by
  have h1 : displayedFulfillment ⟨[1, 99], [1, 0]⟩ = Except.ok 50 := by
    show fulfilledPercent 1 2 = Except.ok 50
    unfold fulfilledPercent pyDiv
    rw [if_neg (by norm_num)]
    norm_num
  have h2 : specFulfillmentRate ⟨[1, 99], [1, 0]⟩ = 1 := by
    unfold specFulfillmentRate
    norm_num
  refine ⟨h1, h2, ?_⟩
  rw [h1, h2]
  intro heq
  have h50 : (50 : ℚ) = 1 := by
    injection heq
  norm_num at h50

/-- C3 amended: for a run with at least one order the Order Fulfillment
figure is count-based, not quantity-based: it equals 100 times the number
of fully fulfilled orders divided by the number of orders. -/
theorem displayed_fulfillment_is_order_count_based (d : FulfillmentData)
    (hlen : d.fulfilled.length = d.quantities.length)
    (hne : d.quantities.length ≠ 0) :
    displayedFulfillment d =
      Except.ok (100 * (fullyFulfilledCount d : ℚ) / (d.quantities.length : ℚ)) := by
  have hzip : (d.quantities.zip d.fulfilled).length = d.quantities.length := by
    simp [List.length_zip, hlen]
  have hsum : unfulfilledCount d + fullyFulfilledCount d = d.quantities.length := by
    rw [unfulfilledCount, fullyFulfilledCount, length_filter_shortfall, hzip]
  have hq : ((d.quantities.length : ℕ) : ℚ) ≠ 0 := by
    exact_mod_cast hne
  unfold displayedFulfillment fulfilledPercent pyDiv
  rw [if_neg hq]
  simp only [Except.ok.injEq]
  have hcast : (unfulfilledCount d : ℚ) =
      (d.quantities.length : ℚ) - (fullyFulfilledCount d : ℚ) := by
    have h := hsum
    have : ((unfulfilledCount d : ℕ) : ℚ) + ((fullyFulfilledCount d : ℕ) : ℚ) =
        ((d.quantities.length : ℕ) : ℚ) := by exact_mod_cast congrArg (Nat.cast : ℕ → ℚ) h
    linarith
  rw [hcast]
  field_simp
  ring

/-- C3 amended, witness: for the concrete run with orders requesting 1 and
99 units and only the first served, the displayed figure is 100 times 1
fully fulfilled order out of 2. -/
theorem displayed_fulfillment_is_order_count_based_witness :
    displayedFulfillment ⟨[1, 99], [1, 0]⟩ =
      Except.ok (100 * (fullyFulfilledCount ⟨[1, 99], [1, 0]⟩ : ℚ) / 2) := by
  have h := displayed_fulfillment_is_order_count_based ⟨[1, 99], [1, 0]⟩
    (by decide) (by decide)
  simpa using h

/-- C4 counterexample: two interleaved runs on the same app instance share
`self.optimizer`; caller A sets 10, caller B sets 60, and the solve of A
observes 60, while it observes 10 when B also sets 10 — the outcome of a
run depends on the time-limit value written by the other caller. -/
theorem solver_time_shared_state_race :
    raceObservedByA 10 60 = 60 ∧ raceObservedByA 10 10 = 10 ∧
    raceObservedByA 10 60 ≠ raceObservedByA 10 10 := by
  decide

/-- C4 amended: the slider value is mutated onto the shared optimizer
object (`self.optimizer.solver_time = solver_time`) and the optimize call
receives no time-limit argument: its arguments are identical for every
slider value. -/
theorem solver_time_mutated_not_passed (opt : Optimizer) (t1 t2 : ℕ)
    (pw : PriorityWeight) (ws : List Warehouse) (os : List Order) :
    (runOptimizationCall opt t1 pw ws os).optimizerAfter.solver_time = t1 ∧
    (runOptimizationCall opt t1 pw ws os).callArgs =
      (runOptimizationCall opt t2 pw ws os).callArgs :=
  ⟨rfl, rfl⟩

/-- C5: every result returned by the modelled optimizer satisfies
conservation, whatever the solver produced and whatever the status: each
warehouse ships at most its current stock and each order receives at most
its requested quantity. -/
theorem assembled_result_conservation (ws : List Warehouse) (os : List Order)
    (raw : List AllocationEdge) (st : String) (tc sv : ℚ)
    (unf : List UnfulfilledEntry) :
    (∀ w ∈ ws,
      shippedFrom (assembleResult ws os raw st tc sv unf).allocation_plan
        w.warehouse_id ≤ w.current_stock) ∧
    (∀ o ∈ os,
      shippedTo (assembleResult ws os raw st tc sv unf).allocation_plan
        o.order_id ≤ o.quantity) := by
  unfold assembleResult
  by_cases h : conservationOK ws os raw = true
  · rw [if_pos h]
    unfold conservationOK at h
    rw [Bool.and_eq_true, List.all_eq_true, List.all_eq_true] at h
    constructor
    · intro w hw
      have := h.1 w hw
      simpa using this
    · intro o ho
      have := h.2 o ho
      simpa using this
  · rw [if_neg h]
    constructor
    · intro w hw
      simp [shippedFrom]
    · intro o ho
      simp [shippedTo]

/-- C5 witness: for one warehouse with stock 50 and a raw solver output
shipping 80 from it, the assembled result still ships at most 50 out of
that warehouse (the invalid assignment is rejected and the plan is empty). -/
theorem assembled_result_conservation_witness :
    shippedFrom (assembleResult
      [{ warehouse_id := "W1", capacity := 100, current_stock := 50,
         latitude := 0, longitude := 0, storage_cost := 1 }]
      []
      [{ warehouse_id := "W1", order_id := "O1", quantity := 80 }]
      "Optimal" 0 0 []).allocation_plan "W1" ≤ 50 :=
  (assembled_result_conservation
    [{ warehouse_id := "W1", capacity := 100, current_stock := 50,
       latitude := 0, longitude := 0, storage_cost := 1 }]
    []
    [{ warehouse_id := "W1", order_id := "O1", quantity := 80 }]
    "Optimal" 0 0 []).1
    { warehouse_id := "W1", capacity := 100, current_stock := 50,
      latitude := 0, longitude := 0, storage_cost := 1 }
    (by simp)

/-- C6: an orders table carrying exactly the seven columns of the
section-6 input contract fails before the optimize call: the overview at
`src/app.py:663` subscripts the absent `region` column and raises
`KeyError`, so the run never reaches `optimize`. -/
theorem contract_orders_table_fails_on_region :
    preOptimizeOverview { columns := contractOrderColumns } =
      Except.error "KeyError: region" ∧
    reachesOptimize { columns := contractOrderColumns } = false := by
  constructor <;> rfl

/-- C7: the whole body of a triggered optimization run is wrapped in
`try`/`except Exception`, so no exception escapes: every failing body is
surfaced as the diagnostic message `Optimization error: ...` and the
wrapper never yields a crash of the host process. -/
theorem run_exceptions_caught_and_surfaced
    (body : Except String OptimizationResult) :
    guardedRun body ≠ RunDisplay.crashed ∧
    (∀ e, guardedRun (Except.error e) =
      RunDisplay.errorShown ("Optimization error: " ++ e)) := by
  constructor
  · cases body <;> simp [guardedRun]
  · intro e
    rfl

/-- C8: whatever the user does with the slider, the solver time produced
by the configuration surface lies between 5 and 60 inclusive, and that is
the value written onto the optimizer by the run. -/
theorem ui_solver_time_bounded (user : ℕ) :
    5 ≤ solverTimeFromUI user ∧ solverTimeFromUI user ≤ 60 ∧
    ∀ (opt : Optimizer) (pw : PriorityWeight) (ws : List Warehouse)
      (os : List Order),
      5 ≤ (runOptimizationCall opt (solverTimeFromUI user) pw ws
            os).optimizerAfter.solver_time ∧
      (runOptimizationCall opt (solverTimeFromUI user) pw ws
            os).optimizerAfter.solver_time ≤ 60 := by
  have h1 : 5 ≤ solverTimeFromUI user := by
    unfold solverTimeFromUI sliderClamp
    omega
  have h2 : solverTimeFromUI user ≤ 60 := by
    unfold solverTimeFromUI sliderClamp
    omega
  exact ⟨h1, h2, fun opt pw ws os => ⟨h1, h2⟩⟩

/-- C9: the delta shown on the Total Cost metric is the literal string
minus ten percent for every result: it does not depend on the result and
coincides across any two runs. -/
theorem total_cost_delta_constant (r r2 : OptimizationResult) :
    (totalCostMetric r).delta = some "-10%" ∧
    (totalCostMetric r).delta = (totalCostMetric r2).delta :=
  ⟨rfl, rfl⟩

/-- C10: in the Upload Data path the `DataLoader` constructor is invoked
exactly when all five files are uploaded, and when any file is missing the
path shows the upload-all warning, creates no loader and returns False. -/
theorem upload_loader_iff_all_files (files : UploadedFiles)
    (ctor : Except String Unit) :
    ((uploadDataPath files ctor).ctorInvoked = true ↔
      allUploaded files = true) ∧
    (allUploaded files = false →
      (uploadDataPath files ctor).ctorInvoked = false ∧
      (uploadDataPath files ctor).loaderCreated = false ∧
      (uploadDataPath files ctor).returned = false ∧
      (uploadDataPath files ctor).messages =
        [SidebarMsg.warningMsg "Please upload all required files"]) := by
  by_cases h : allUploaded files = true
  · cases ctor <;> simp [uploadDataPath, h]
  · have hb : allUploaded files = false := by
      simpa using h
    simp [uploadDataPath, hb]

/-- C10 witness: with the suppliers file missing and a constructor that
would succeed, the Upload Data path returns False and creates no loader. -/
theorem upload_loader_iff_all_files_witness :
    allUploaded ⟨true, true, true, false, true⟩ = false ∧
    (uploadDataPath ⟨true, true, true, false, true⟩
      (Except.ok ())).loaderCreated = false ∧
    (uploadDataPath ⟨true, true, true, false, true⟩
      (Except.ok ())).returned = false :=
  ⟨rfl,
    ((upload_loader_iff_all_files ⟨true, true, true, false, true⟩
      (Except.ok ())).2 rfl).2.1,
    ((upload_loader_iff_all_files ⟨true, true, true, false, true⟩
      (Except.ok ())).2 rfl).2.2.1⟩

end LogiTrack
